import Mathlib

/-!
Shallow embedding of the calculator program in
src/code-ai-ide/samples/python/main.py.

Python floats are modelled by real numbers.  Exceptions are modelled by
an explicit error type: a raising expression becomes a value of type
Except CalcError ℝ, and the stateful method Calculator.calculate becomes
a state-passing function returning the call result together with the
state of the calculator after the call (the Python method mutates
self.history only after all raise sites, so on an error the state after
the call is the state before it, which the embedding makes explicit).

Two behaviours of the Python runtime that the source relies on are part
of the embedding because the source calls into them:
  - math.log(a, base) is computed as log(a)/log(base) and the float
    division raises ZeroDivisionError when log(base) == 0, which for
    base > 0 happens exactly at base = 1;
  - a ** b raises ZeroDivisionError when a == 0 and b < 0; otherwise it
    agrees with the real power a ^ b (for a negative base and a
    non-integer exponent Python produces a complex number whose real
    part is the principal real power modelled here).
-/

open Classical

/-- The seven operation implementations the constructor installs in
self.operations, as a closed tag; the dictionary values in the source
are the bound methods Calculator.add, ..., Calculator.log. -/
inductive Op where
  | add
  | subtract
  | multiply
  | divide
  | power
  | sqrt
  | log
deriving DecidableEq, Repr

/-- The errors a calculate call can raise.  ValueError raise sites in the
source carry their message strings; ZeroDivisionError comes from the two
runtime behaviours noted in the module docstring; TypeError would come
from calling a method with the wrong number of arguments and is
unreachable from the initial operation table. -/
inductive CalcError where
  | unknownOperation (op : String)
  | operandCount (op : String)
  | invalidArgument (msg : String)
  | zeroDivision (msg : String)
  | typeError
deriving DecidableEq, Repr

/-- The Calculation dataclass: operation, operands, result, timestamp. -/
structure Calculation where
  operation : String
  operands : List ℝ
  result : ℝ
  timestamp : String

/-- The value of json.dumps on the dict with key "time" and value "now",
i.e. the constant timestamp text the source stores in every record. -/
def timestampStr : String := "\x7b\"time\": \"now\"\x7d"

/-- The Calculator class state: the history list and the operations
dictionary (an association list from symbol to implementation). -/
structure Calculator where
  history : List Calculation
  operations : List (String × Op)

/-- The operations mapping built in Calculator.__init__. -/
def initOperations : List (String × Op) :=
  [("+", Op.add), ("-", Op.subtract), ("*", Op.multiply), ("/", Op.divide),
   ("**", Op.power), ("sqrt", Op.sqrt), ("log", Op.log)]

/-- A freshly constructed Calculator: empty history, the fixed table. -/
def Calculator.init : Calculator :=
  ⟨[], initOperations⟩

/-- Calculator.add: return a + b. -/
def Calculator.add (a b : ℝ) : ℝ := a + b

/-- Calculator.subtract: return a - b. -/
def Calculator.subtract (a b : ℝ) : ℝ := a - b

/-- Calculator.multiply: return a * b. -/
def Calculator.multiply (a b : ℝ) : ℝ := a * b

/-- Calculator.divide: raise ValueError on b == 0, else return a / b. -/
noncomputable def Calculator.divide (a b : ℝ) : Except CalcError ℝ :=
  if b = 0 then .error (.invalidArgument ("Cannot divide by zero"))
  else .ok (a / b)

/-- Calculator.power: return a ** b.  Python raises ZeroDivisionError for
zero to a negative power; otherwise the value is the real power. -/
noncomputable def Calculator.power (a b : ℝ) : Except CalcError ℝ :=
  if a = 0 ∧ b < 0 then
    .error (.zeroDivision ("0.0 cannot be raised to a negative power"))
  else .ok (Real.rpow a b)

/-- Calculator.sqrt: raise ValueError on a < 0, else return math.sqrt(a). -/
noncomputable def Calculator.sqrt (a : ℝ) : Except CalcError ℝ :=
  if a < 0 then
    .error (.invalidArgument ("Cannot calculate square root of negative number"))
  else .ok (Real.sqrt a)

/-- Calculator.log: raise ValueError on a <= 0 or base <= 0, else return
math.log(a, base), which CPython computes as log(a)/log(base) and which
raises ZeroDivisionError when log(base) == 0 (i.e. base == 1).  The
source's default argument base=10 is applied at the one-operand call
site in calculate. -/
noncomputable def Calculator.log (a base : ℝ) : Except CalcError ℝ :=
  if a ≤ 0 ∨ base ≤ 0 then
    .error (.invalidArgument ("Invalid arguments for logarithm"))
  else if Real.log base = 0 then
    .error (.zeroDivision ("float division by zero"))
  else .ok (Real.log a / Real.log base)

/-- Calling a table entry with one argument, as calculate does in the
sqrt/log one-operand branch.  A two-argument method called with one
argument would raise TypeError; only sqrt (unary) and log (whose base
defaults to 10) accept the call. -/
noncomputable def unaryCall : Op → ℝ → Except CalcError ℝ
  | Op.sqrt, a => Calculator.sqrt a
  | Op.log, a => Calculator.log a 10
  | _, _ => .error CalcError.typeError

/-- Calling a table entry with two arguments, as calculate does in the
binary branch and in the log two-operand branch.  sqrt called with two
arguments would raise TypeError. -/
noncomputable def binaryCall : Op → ℝ → ℝ → Except CalcError ℝ
  | Op.add, a, b => .ok (Calculator.add a b)
  | Op.subtract, a, b => .ok (Calculator.subtract a b)
  | Op.multiply, a, b => .ok (Calculator.multiply a b)
  | Op.divide, a, b => Calculator.divide a b
  | Op.power, a, b => Calculator.power a b
  | Op.log, a, b => Calculator.log a b
  | Op.sqrt, _, _ => .error CalcError.typeError

/-- The computation part of Calculator.calculate: the unknown-operation
check, the operand-count checks and the dispatch, exactly in source
order.  Looking the symbol up once and matching on the result models the
membership test (none means the symbol is not a key) followed by the
self.operations lookup on the unchanged dictionary. -/
noncomputable def Calculator.calcResult (c : Calculator) (operation : String)
    (operands : List ℝ) : Except CalcError ℝ :=
  match List.lookup operation c.operations with
  | none => .error (.unknownOperation operation)
  | some op =>
    if operation ∈ ["sqrt", "log"] then
      match operands with
      | [a] => unaryCall op a
      | [a, b] =>
        if operation = "log" then binaryCall op a b
        else .error (.operandCount operation)
      | _ => .error (.operandCount operation)
    else
      match operands with
      | a :: b :: _ => binaryCall op a b
      | _ => .error (.operandCount operation)

/-- Calculator.calculate: compute the result; on success build the
Calculation record from the operation symbol, the full operand list, the
result and the constant timestamp, append it to history, and return the
result.  A raise propagates with the state untouched. -/
noncomputable def Calculator.calculate (c : Calculator) (operation : String)
    (operands : List ℝ) : Except CalcError ℝ × Calculator :=
  match c.calcResult operation operands with
  | .error e => (.error e, c)
  | .ok result =>
    (.ok result,
     Calculator.mk
       (c.history ++ [Calculation.mk operation operands result timestampStr])
       c.operations)

/-- Calculator.get_history: return the history list. -/
def Calculator.get_history (c : Calculator) : List Calculation :=
  c.history

/-- Calculator.clear_history: empty the history; the operations table is
untouched. -/
def Calculator.clear_history (c : Calculator) : Calculator :=
  ⟨[], c.operations⟩

/-- Calculator states reachable from a fresh Calculator by any sequence
of calculate and clear_history calls. -/
inductive ReachableCalc : Calculator → Prop where
  | init : ReachableCalc Calculator.init
  | step (c : Calculator) (op : String) (args : List ℝ) :
      ReachableCalc c → ReachableCalc (c.calculate op args).2
  | clear (c : Calculator) :
      ReachableCalc c → ReachableCalc c.clear_history

/-- The history the driver routine builds: one record per example call,
in call order, with the results the spec's concrete scenario lists. -/
def demoHistory : List Calculation :=
  [Calculation.mk "+" [2, 3] 5 timestampStr,
   Calculation.mk "-" [10, 4] 6 timestampStr,
   Calculation.mk "*" [5, 6] 30 timestampStr,
   Calculation.mk "/" [15, 3] 5 timestampStr,
   Calculation.mk "**" [2, 8] 256 timestampStr,
   Calculation.mk "sqrt" [16] 4 timestampStr,
   Calculation.mk "log" [100] 2 timestampStr]

/-! ## Shared unfolding lemmas about calculate -/

theorem calculate_of_error (c : Calculator) (op : String) (args : List ℝ)
    (e : CalcError) (h : c.calcResult op args = .error e) :
    c.calculate op args = (.error e, c) := by
  simp [Calculator.calculate, h]

theorem calculate_of_ok (c : Calculator) (op : String) (args : List ℝ)
    (r : ℝ) (h : c.calcResult op args = .ok r) :
    c.calculate op args =
      (.ok r,
       Calculator.mk (c.history ++ [Calculation.mk op args r timestampStr])
         c.operations) := by
  simp [Calculator.calculate, h]

theorem calculate_fst_ok_iff (c : Calculator) (op : String) (args : List ℝ)
    (r : ℝ) :
    (c.calculate op args).1 = .ok r ↔ c.calcResult op args = .ok r := by
  cases h : c.calcResult op args with
  | error e => simp [Calculator.calculate, h]
  | ok r2 => simp [Calculator.calculate, h]

theorem calculate_snd_of_fst_ok (c : Calculator) (op : String) (args : List ℝ)
    (r : ℝ) (h : (c.calculate op args).1 = .ok r) :
    (c.calculate op args).2 =
      Calculator.mk (c.history ++ [Calculation.mk op args r timestampStr])
        c.operations := by
  rw [calculate_of_ok c op args r ((calculate_fst_ok_iff c op args r).mp h)]

theorem lookup_initOperations_eq_none (op : String)
    (h : op ∉ ["+", "-", "*", "/", "**", "sqrt", "log"]) :
    List.lookup op initOperations = none := by
  simp only [List.mem_cons, List.not_mem_nil, or_false, not_or] at h
  obtain ⟨h1, h2, h3, h4, h5, h6, h7⟩ := h
  have b1 : (op == "+") = false := beq_eq_false_iff_ne.mpr h1
  have b2 : (op == "-") = false := beq_eq_false_iff_ne.mpr h2
  have b3 : (op == "*") = false := beq_eq_false_iff_ne.mpr h3
  have b4 : (op == "/") = false := beq_eq_false_iff_ne.mpr h4
  have b5 : (op == "**") = false := beq_eq_false_iff_ne.mpr h5
  have b6 : (op == "sqrt") = false := beq_eq_false_iff_ne.mpr h6
  have b7 : (op == "log") = false := beq_eq_false_iff_ne.mpr h7
  simp [initOperations, List.lookup, b1, b2, b3, b4, b5, b6, b7]

/-! ## Claims -/

/-- Claim C1: for every numeric a and b with b ≠ 0, a call of
calculate with the division symbol and operands [a, b] returns a / b and
appends exactly one record to history whose operands field is [a, b]. -/
theorem claim_C1_divide (h : List Calculation) (a b : ℝ) (hb : b ≠ 0) :
    (Calculator.mk h initOperations).calculate "/" [a, b] =
      (.ok (a / b),
       Calculator.mk (h ++ [Calculation.mk "/" [a, b] (a / b) timestampStr])
         initOperations) := by
  have hres : (Calculator.mk h initOperations).calcResult "/" [a, b] =
      .ok (a / b) := by
    show Calculator.divide a b = .ok (a / b)
    rw [Calculator.divide, if_neg hb]
  exact calculate_of_ok _ _ _ _ hres

/-- Witness for C1 at a = 15, b = 3 in the empty-history state. -/
theorem claim_C1_divide_witness :
    (3:ℝ) ≠ 0 ∧
    (Calculator.mk [] initOperations).calculate "/" [15, 3] =
      (.ok ((15:ℝ) / 3),
       Calculator.mk
         [Calculation.mk "/" [15, 3] ((15:ℝ) / 3) timestampStr]
         initOperations) :=
  ⟨by norm_num, claim_C1_divide [] 15 3 (by norm_num)⟩

/-- Claim C2: every failing calculate call — unknown operation, invalid
operand count, or a precondition violation — leaves the calculator state
(and so the history sequence) exactly as it was; only successful calls
append. -/
theorem claim_C2_error_frame (c : Calculator) (op : String) (args : List ℝ)
    (e : CalcError) (h : (c.calculate op args).1 = .error e) :
    (c.calculate op args).2 = c := by
  cases hres : c.calcResult op args with
  | error e2 => rw [calculate_of_error c op args e2 hres]
  | ok r =>
    rw [calculate_of_ok c op args r hres] at h
    exact absurd h (by simp)

/-- Witness for C2: division by zero on a fresh calculator fails and the
state is unchanged. -/
theorem claim_C2_error_frame_witness :
    (Calculator.init.calculate "/" [1, 0]).1 =
      .error (.invalidArgument ("Cannot divide by zero")) ∧
    (Calculator.init.calculate "/" [1, 0]).2 = Calculator.init := by
  have hres : Calculator.init.calcResult "/" [1, 0] =
      .error (.invalidArgument ("Cannot divide by zero")) := by
    show Calculator.divide 1 0 = _
    rw [Calculator.divide, if_pos rfl]
  have hfst : (Calculator.init.calculate "/" [1, 0]).1 =
      .error (.invalidArgument ("Cannot divide by zero")) := by
    rw [calculate_of_error _ _ _ _ hres]
  exact ⟨hfst, claim_C2_error_frame Calculator.init "/" [1, 0] _ hfst⟩

/-- Claim C6: any operation symbol outside the closed seven-symbol set
fails with an unknown-operation error for every operand list (including
the empty one: the membership check precedes every operand-count check),
and the state is unchanged. -/
theorem claim_C6_unknown_operation (op : String)
    (hop : op ∉ ["+", "-", "*", "/", "**", "sqrt", "log"])
    (h : List Calculation) (args : List ℝ) :
    (Calculator.mk h initOperations).calculate op args =
      (.error (.unknownOperation op), Calculator.mk h initOperations) := by
  have hres : (Calculator.mk h initOperations).calcResult op args =
      .error (.unknownOperation op) := by
    rw [Calculator.calcResult]
    rw [show List.lookup op (Calculator.mk h initOperations).operations = none
          from lookup_initOperations_eq_none op hop]
  exact calculate_of_error _ _ _ _ hres

/-- Witness for C6: the symbol "foo" with operands [1, 2], and also with
no operands at all, fails with the unknown-operation error. -/
theorem claim_C6_unknown_operation_witness :
    (Calculator.mk [] initOperations).calculate "foo" [1, 2] =
      (.error (.unknownOperation "foo"), Calculator.mk [] initOperations) ∧
    (Calculator.mk [] initOperations).calculate "foo" [] =
      (.error (.unknownOperation "foo"), Calculator.mk [] initOperations) :=
  ⟨claim_C6_unknown_operation "foo" (by decide) [] [1, 2],
   claim_C6_unknown_operation "foo" (by decide) [] []⟩

/-! ## Lemmas about the individual operation functions -/

theorem Calculator.log_ok (a base : ℝ) (ha : 0 < a) (hb : 0 < base)
    (hb1 : base ≠ 1) :
    Calculator.log a base = .ok (Real.logb base a) := by
  have hc1 : ¬(a ≤ 0 ∨ base ≤ 0) := by
    push_neg
    exact ⟨ha, hb⟩
  have hc2 : ¬(Real.log base = 0) := by
    rw [Real.log_eq_zero]
    push_neg
    refine ⟨ne_of_gt hb, hb1, by linarith⟩
  rw [Calculator.log, if_neg hc1, if_neg hc2, Real.log_div_log]

theorem Calculator.log_invalid (a base : ℝ) (hab : a ≤ 0 ∨ base ≤ 0) :
    Calculator.log a base =
      .error (.invalidArgument ("Invalid arguments for logarithm")) := by
  rw [Calculator.log, if_pos hab]

theorem Calculator.log_base_one (a : ℝ) (ha : 0 < a) :
    Calculator.log a 1 = .error (.zeroDivision ("float division by zero")) := by
  have hc1 : ¬(a ≤ 0 ∨ (1:ℝ) ≤ 0) := by
    push_neg
    exact ⟨ha, by norm_num⟩
  rw [Calculator.log, if_neg hc1, if_pos Real.log_one]

/-- Claim C4: calculate with the sqrt symbol and one operand a fails with
the invalid-argument error and an unchanged state when a < 0; when
0 ≤ a it returns the square root, a non-negative value whose square is
a (exactly, in the real-number model of floats). -/
theorem claim_C4_sqrt :
    (∀ (h : List Calculation) (a : ℝ), a < 0 →
      (Calculator.mk h initOperations).calculate "sqrt" [a] =
        (.error
           (.invalidArgument ("Cannot calculate square root of negative number")),
         Calculator.mk h initOperations)) ∧
    (∀ (h : List Calculation) (a : ℝ), 0 ≤ a →
      ((Calculator.mk h initOperations).calculate "sqrt" [a]).1 =
          .ok (Real.sqrt a) ∧
        0 ≤ Real.sqrt a ∧ Real.sqrt a ^ 2 = a) := by
  constructor
  · intro h a ha
    have hres : (Calculator.mk h initOperations).calcResult "sqrt" [a] =
        .error
          (.invalidArgument ("Cannot calculate square root of negative number")) := by
      show Calculator.sqrt a = _
      rw [Calculator.sqrt, if_pos ha]
    exact calculate_of_error _ _ _ _ hres
  · intro h a ha
    have hres : (Calculator.mk h initOperations).calcResult "sqrt" [a] =
        .ok (Real.sqrt a) := by
      show Calculator.sqrt a = _
      rw [Calculator.sqrt, if_neg (not_lt.mpr ha)]
    exact ⟨(calculate_fst_ok_iff _ _ _ _).mpr hres, Real.sqrt_nonneg a,
      Real.sq_sqrt ha⟩

/-- Witness for C4 at a = -4 (error side) and a = 16 (success side). -/
theorem claim_C4_sqrt_witness :
    ((-4:ℝ) < 0 ∧
      (Calculator.mk [] initOperations).calculate "sqrt" [-4] =
        (.error
           (.invalidArgument ("Cannot calculate square root of negative number")),
         Calculator.mk [] initOperations)) ∧
    ((0:ℝ) ≤ 16 ∧
      ((Calculator.mk [] initOperations).calculate "sqrt" [16]).1 =
          .ok (Real.sqrt 16) ∧
        0 ≤ Real.sqrt 16 ∧ Real.sqrt (16:ℝ) ^ 2 = 16) :=
  ⟨⟨by norm_num, claim_C4_sqrt.1 [] (-4) (by norm_num)⟩,
   ⟨by norm_num, claim_C4_sqrt.2 [] 16 (by norm_num)⟩⟩

/-- Claim C3, amended: with operands [a, base], a > 0, base > 0 and
base ≠ 1, calculate with the log symbol returns the base-base logarithm
of a; with one operand [a] and a > 0 it uses base 10; a ≤ 0 or base ≤ 0
fails with the invalid-argument error; but at base = 1 (excluded from
the original claim by the counterexample) the call fails with a
zero-division error because math.log computes log(a)/log(base). -/
theorem claim_C3_log :
    (∀ (h : List Calculation) (a base : ℝ), 0 < a → 0 < base → base ≠ 1 →
      ((Calculator.mk h initOperations).calculate "log" [a, base]).1 =
        .ok (Real.logb base a)) ∧
    (∀ (h : List Calculation) (a : ℝ), 0 < a →
      ((Calculator.mk h initOperations).calculate "log" [a]).1 =
        .ok (Real.logb 10 a)) ∧
    (∀ (h : List Calculation) (a base : ℝ), a ≤ 0 ∨ base ≤ 0 →
      (Calculator.mk h initOperations).calculate "log" [a, base] =
        (.error (.invalidArgument ("Invalid arguments for logarithm")),
         Calculator.mk h initOperations)) ∧
    (∀ (h : List Calculation) (a : ℝ), a ≤ 0 →
      (Calculator.mk h initOperations).calculate "log" [a] =
        (.error (.invalidArgument ("Invalid arguments for logarithm")),
         Calculator.mk h initOperations)) ∧
    (∀ (h : List Calculation) (a : ℝ), 0 < a →
      (Calculator.mk h initOperations).calculate "log" [a, 1] =
        (.error (.zeroDivision ("float division by zero")),
         Calculator.mk h initOperations)) := by
  refine ⟨?_, ?_, ?_, ?_, ?_⟩
  · intro h a base ha hb hb1
    have hres : (Calculator.mk h initOperations).calcResult "log" [a, base] =
        .ok (Real.logb base a) := by
      show Calculator.log a base = _
      exact Calculator.log_ok a base ha hb hb1
    exact (calculate_fst_ok_iff _ _ _ _).mpr hres
  · intro h a ha
    have hres : (Calculator.mk h initOperations).calcResult "log" [a] =
        .ok (Real.logb 10 a) := by
      show Calculator.log a 10 = _
      exact Calculator.log_ok a 10 ha (by norm_num) (by norm_num)
    exact (calculate_fst_ok_iff _ _ _ _).mpr hres
  · intro h a base hab
    have hres : (Calculator.mk h initOperations).calcResult "log" [a, base] =
        .error (.invalidArgument ("Invalid arguments for logarithm")) := by
      show Calculator.log a base = _
      exact Calculator.log_invalid a base hab
    exact calculate_of_error _ _ _ _ hres
  · intro h a ha
    have hres : (Calculator.mk h initOperations).calcResult "log" [a] =
        .error (.invalidArgument ("Invalid arguments for logarithm")) := by
      show Calculator.log a 10 = _
      exact Calculator.log_invalid a 10 (Or.inl ha)
    exact calculate_of_error _ _ _ _ hres
  · intro h a ha
    have hres : (Calculator.mk h initOperations).calcResult "log" [a, 1] =
        .error (.zeroDivision ("float division by zero")) := by
      show Calculator.log a 1 = _
      exact Calculator.log_base_one a ha
    exact calculate_of_error _ _ _ _ hres

/-- Counterexample for C3 as stated: a = 100 > 0 and base = 1 > 0, yet
the call does not return a value — it fails with the zero-division
error coming from log(a)/log(1). -/
theorem claim_C3_log_counterexample :
    (0:ℝ) < 100 ∧ (0:ℝ) < 1 ∧
    (Calculator.mk [] initOperations).calculate "log" [100, 1] =
      (.error (.zeroDivision ("float division by zero")),
       Calculator.mk [] initOperations) := by
  refine ⟨by norm_num, by norm_num, ?_⟩
  have hres : (Calculator.mk [] initOperations).calcResult "log" [100, 1] =
      .error (.zeroDivision ("float division by zero")) := by
    show Calculator.log 100 1 = _
    have hc1 : ¬((100:ℝ) ≤ 0 ∨ (1:ℝ) ≤ 0) := by norm_num
    rw [Calculator.log, if_neg hc1, if_pos Real.log_one]
  exact calculate_of_error _ _ _ _ hres

/-- Witness for C3 (amended): the demo call with operands [100] succeeds
with the base-10 logarithm, and a two-operand call with base 2 succeeds. -/
theorem claim_C3_log_witness :
    ((0:ℝ) < 100 ∧
      ((Calculator.mk [] initOperations).calculate "log" [100]).1 =
        .ok (Real.logb 10 100)) ∧
    ((0:ℝ) < 8 ∧ (0:ℝ) < 2 ∧ (2:ℝ) ≠ 1 ∧
      ((Calculator.mk [] initOperations).calculate "log" [8, 2]).1 =
        .ok (Real.logb 2 8)) :=
  ⟨⟨by norm_num, claim_C3_log.2.1 [] 100 (by norm_num)⟩,
   ⟨by norm_num, by norm_num, by norm_num,
    claim_C3_log.1 [] 8 2 (by norm_num) (by norm_num) (by norm_num)⟩⟩

/-- Claim C7, amended: calculate with the power symbol and operands
[a, b] succeeds and returns the real power of a and b except in the one
case the counterexample forces: a = 0 with b < 0 fails with Python's
zero-division error for zero raised to a negative power. -/
theorem claim_C7_power :
    (∀ (h : List Calculation) (a b : ℝ), (a = 0 → 0 ≤ b) →
      (Calculator.mk h initOperations).calculate "**" [a, b] =
        (.ok (Real.rpow a b),
         Calculator.mk
           (h ++ [Calculation.mk "**" [a, b] (Real.rpow a b) timestampStr])
           initOperations)) ∧
    (∀ (h : List Calculation) (b : ℝ), b < 0 →
      (Calculator.mk h initOperations).calculate "**" [0, b] =
        (.error (.zeroDivision ("0.0 cannot be raised to a negative power")),
         Calculator.mk h initOperations)) := by
  constructor
  · intro h a b hab
    have hres : (Calculator.mk h initOperations).calcResult "**" [a, b] =
        .ok (Real.rpow a b) := by
      show Calculator.power a b = _
      rw [Calculator.power, if_neg]
      rintro ⟨rfl, hb⟩
      exact absurd (hab rfl) (not_le.mpr hb)
    exact calculate_of_ok _ _ _ _ hres
  · intro h b hb
    have hres : (Calculator.mk h initOperations).calcResult "**" [0, b] =
        .error (.zeroDivision ("0.0 cannot be raised to a negative power")) := by
      show Calculator.power 0 b = _
      rw [Calculator.power, if_pos ⟨rfl, hb⟩]
    exact calculate_of_error _ _ _ _ hres

/-- Counterexample for C7 as stated: at a = 0, b = -1 the call does not
succeed — zero cannot be raised to a negative power in Python. -/
theorem claim_C7_power_counterexample :
    (Calculator.mk [] initOperations).calculate "**" [0, -1] =
      (.error (.zeroDivision ("0.0 cannot be raised to a negative power")),
       Calculator.mk [] initOperations) := by
  have hres : (Calculator.mk [] initOperations).calcResult "**" [0, -1] =
      .error (.zeroDivision ("0.0 cannot be raised to a negative power")) := by
    show Calculator.power 0 (-1) = _
    rw [Calculator.power, if_pos ⟨rfl, by norm_num⟩]
  exact calculate_of_error _ _ _ _ hres

/-- Witness for C7 (amended) at a = 2, b = 8 and at a = 0, b = -1. -/
theorem claim_C7_power_witness :
    (Calculator.mk [] initOperations).calculate "**" [2, 8] =
      (.ok (Real.rpow 2 8),
       Calculator.mk
         [Calculation.mk "**" [2, 8] (Real.rpow 2 8) timestampStr]
         initOperations) ∧
    ((-1:ℝ) < 0 ∧
      (Calculator.mk [] initOperations).calculate "**" [0, -1] =
        (.error (.zeroDivision ("0.0 cannot be raised to a negative power")),
         Calculator.mk [] initOperations)) :=
  ⟨claim_C7_power.1 [] 2 8 (by norm_num),
   ⟨by norm_num, claim_C7_power.2 [] (-1) (by norm_num)⟩⟩

theorem calculate_history_of_fst_ok (c : Calculator) (op : String)
    (args : List ℝ) (r : ℝ) (h : (c.calculate op args).1 = .ok r) :
    (c.calculate op args).2.history =
      c.history ++ [Calculation.mk op args r timestampStr] := by
  rw [calculate_snd_of_fst_ok c op args r h]

theorem calculate_fst_congr (c : Calculator) (op : String)
    (args1 args2 : List ℝ)
    (hsame : c.calcResult op args1 = c.calcResult op args2) :
    (c.calculate op args1).1 = (c.calculate op args2).1 := by
  cases hval : c.calcResult op args1 with
  | error e =>
    rw [calculate_of_error _ _ _ _ hval,
        calculate_of_error _ _ _ _ (hsame.symm.trans hval)]
  | ok r =>
    rw [calculate_of_ok _ _ _ _ hval,
        calculate_of_ok _ _ _ _ (hsame.symm.trans hval)]

/-- Claim C5: sqrt with any operand count other than 1 fails with the
operand-count error; log with any count other than 1 or 2 fails
likewise; each binary operation with fewer than 2 operands fails
likewise; and a binary operation with more than 2 operands computes from
the first two only, while a successful call still records the full
original operand list. -/
theorem claim_C5_operand_counts :
    (∀ (h : List Calculation) (args : List ℝ), args.length ≠ 1 →
      (Calculator.mk h initOperations).calculate "sqrt" args =
        (.error (.operandCount "sqrt"), Calculator.mk h initOperations)) ∧
    (∀ (h : List Calculation) (args : List ℝ),
      args.length ≠ 1 → args.length ≠ 2 →
      (Calculator.mk h initOperations).calculate "log" args =
        (.error (.operandCount "log"), Calculator.mk h initOperations)) ∧
    (∀ op ∈ (["+", "-", "*", "/", "**"] : List String),
      ∀ (h : List Calculation) (args : List ℝ), args.length < 2 →
      (Calculator.mk h initOperations).calculate op args =
        (.error (.operandCount op), Calculator.mk h initOperations)) ∧
    (∀ op ∈ (["+", "-", "*", "/", "**"] : List String),
      ∀ (h : List Calculation) (a b : ℝ) (rest : List ℝ),
      ((Calculator.mk h initOperations).calculate op (a :: b :: rest)).1 =
        ((Calculator.mk h initOperations).calculate op [a, b]).1 ∧
      (∀ r : ℝ,
        ((Calculator.mk h initOperations).calculate op (a :: b :: rest)).1 =
          .ok r →
        ((Calculator.mk h initOperations).calculate op (a :: b :: rest)).2.history =
          h ++ [Calculation.mk op (a :: b :: rest) r timestampStr])) := by
  refine ⟨?_, ?_, ?_, ?_⟩
  · intro h args hlen
    cases args with
    | nil => exact calculate_of_error _ _ _ _ rfl
    | cons a tail =>
      cases tail with
      | nil => simp at hlen
      | cons b tail2 =>
        cases tail2 with
        | nil => exact calculate_of_error _ _ _ _ rfl
        | cons d tail3 => exact calculate_of_error _ _ _ _ rfl
  · intro h args hlen1 hlen2
    cases args with
    | nil => exact calculate_of_error _ _ _ _ rfl
    | cons a tail =>
      cases tail with
      | nil => simp at hlen1
      | cons b tail2 =>
        cases tail2 with
        | nil => simp at hlen2
        | cons d tail3 => exact calculate_of_error _ _ _ _ rfl
  · intro op hmem h args hlen
    simp only [List.mem_cons, List.not_mem_nil, or_false] at hmem
    have herr : (Calculator.mk h initOperations).calcResult op args =
        .error (.operandCount op) := by
      rcases hmem with rfl | rfl | rfl | rfl | rfl <;>
      · cases args with
        | nil => rfl
        | cons a tail =>
          cases tail with
          | nil => rfl
          | cons b tail2 =>
            exfalso
            simp only [List.length_cons] at hlen
            omega
    exact calculate_of_error _ _ _ _ herr
  · intro op hmem h a b rest
    simp only [List.mem_cons, List.not_mem_nil, or_false] at hmem
    refine ⟨?_, ?_⟩
    · rcases hmem with rfl | rfl | rfl | rfl | rfl <;>
        exact calculate_fst_congr _ _ _ _ rfl
    · intro r hr
      exact calculate_history_of_fst_ok _ _ _ _ hr

/-- Witness for C5: sqrt with two operands fails, log with none fails, a
binary operation with one operand fails, and a multiplication with three
operands multiplies the first two while recording all three. -/
theorem claim_C5_operand_counts_witness :
    (([1, 2] : List ℝ).length ≠ 1 ∧
      (Calculator.mk [] initOperations).calculate "sqrt" [1, 2] =
        (.error (.operandCount "sqrt"), Calculator.mk [] initOperations)) ∧
    (([] : List ℝ).length ≠ 1 ∧ ([] : List ℝ).length ≠ 2 ∧
      (Calculator.mk [] initOperations).calculate "log" [] =
        (.error (.operandCount "log"), Calculator.mk [] initOperations)) ∧
    (([5] : List ℝ).length < 2 ∧
      (Calculator.mk [] initOperations).calculate "+" [5] =
        (.error (.operandCount "+"), Calculator.mk [] initOperations)) ∧
    (((Calculator.mk [] initOperations).calculate "*" [2, 3, 4]).1 =
        ((Calculator.mk [] initOperations).calculate "*" [2, 3]).1 ∧
      ((Calculator.mk [] initOperations).calculate "*" [2, 3, 4]).1 = .ok 6 ∧
      ((Calculator.mk [] initOperations).calculate "*" [2, 3, 4]).2.history =
        [Calculation.mk "*" [2, 3, 4] 6 timestampStr]) := by
  have hfst : ((Calculator.mk [] initOperations).calculate "*" [2, 3, 4]).1 =
      .ok 6 := by
    rw [calculate_fst_ok_iff]
    show (Except.ok (Calculator.multiply 2 3) : Except CalcError ℝ) = .ok 6
    norm_num [Calculator.multiply]
  refine ⟨⟨by simp, claim_C5_operand_counts.1 [] [1, 2] (by simp)⟩,
    ⟨by simp, by simp,
      claim_C5_operand_counts.2.1 [] [] (by simp) (by simp)⟩,
    ⟨by simp, claim_C5_operand_counts.2.2.1 "+" (by decide) [] [5] (by simp)⟩,
    (claim_C5_operand_counts.2.2.2 "*" (by decide) [] 2 3 [4]).1, hfst, ?_⟩
  have := (claim_C5_operand_counts.2.2.2 "*" (by decide) [] 2 3 [4]).2 6 hfst
  simpa using this

theorem log_ten_ne_zero : Real.log 10 ≠ 0 := by
  rw [Ne, Real.log_eq_zero]
  push_neg
  norm_num

theorem rpow_two_eight : Real.rpow 2 8 = 256 := by
  show (2:ℝ) ^ (8:ℝ) = 256
  rw [show (8:ℝ) = ((8:ℕ):ℝ) by norm_num, Real.rpow_natCast]
  norm_num

theorem sqrt_sixteen : Real.sqrt 16 = 4 := by
  rw [show (16:ℝ) = (4:ℝ) ^ 2 by norm_num,
      Real.sqrt_sq (by norm_num : (0:ℝ) ≤ 4)]

theorem log_hundred_base_ten : Real.log 100 / Real.log 10 = 2 := by
  rw [show (100:ℝ) = 10 ^ (2:ℕ) by norm_num, Real.log_pow]
  push_cast
  rw [mul_div_assoc, div_self log_ten_ne_zero, mul_one]

/-- Claim C8: starting from a fresh Calculator, the seven demo calls
return 5, 6, 30, 5, 256, 4 and 2 in order, each appending its record, so
get_history afterwards is the 7-element sequence in call order. -/
theorem claim_C8_demo_scenario :
    Calculator.init.calculate "+" [2, 3] =
      (.ok 5, Calculator.mk (demoHistory.take 1) initOperations) ∧
    (Calculator.mk (demoHistory.take 1) initOperations).calculate "-" [10, 4] =
      (.ok 6, Calculator.mk (demoHistory.take 2) initOperations) ∧
    (Calculator.mk (demoHistory.take 2) initOperations).calculate "*" [5, 6] =
      (.ok 30, Calculator.mk (demoHistory.take 3) initOperations) ∧
    (Calculator.mk (demoHistory.take 3) initOperations).calculate "/" [15, 3] =
      (.ok 5, Calculator.mk (demoHistory.take 4) initOperations) ∧
    (Calculator.mk (demoHistory.take 4) initOperations).calculate "**" [2, 8] =
      (.ok 256, Calculator.mk (demoHistory.take 5) initOperations) ∧
    (Calculator.mk (demoHistory.take 5) initOperations).calculate "sqrt" [16] =
      (.ok 4, Calculator.mk (demoHistory.take 6) initOperations) ∧
    (Calculator.mk (demoHistory.take 6) initOperations).calculate "log" [100] =
      (.ok 2, Calculator.mk demoHistory initOperations) ∧
    (Calculator.mk demoHistory initOperations).get_history.length = 7 := by
  have h1 : Calculator.init.calcResult "+" [2, 3] = .ok 5 := by
    show (Except.ok (Calculator.add 2 3) : Except CalcError ℝ) = .ok 5
    norm_num [Calculator.add]
  have h2 : (Calculator.mk (demoHistory.take 1) initOperations).calcResult
      "-" [10, 4] = .ok 6 := by
    show (Except.ok (Calculator.subtract 10 4) : Except CalcError ℝ) = .ok 6
    norm_num [Calculator.subtract]
  have h3 : (Calculator.mk (demoHistory.take 2) initOperations).calcResult
      "*" [5, 6] = .ok 30 := by
    show (Except.ok (Calculator.multiply 5 6) : Except CalcError ℝ) = .ok 30
    norm_num [Calculator.multiply]
  have h4 : (Calculator.mk (demoHistory.take 3) initOperations).calcResult
      "/" [15, 3] = .ok 5 := by
    show Calculator.divide 15 3 = .ok 5
    rw [Calculator.divide, if_neg (by norm_num : ¬(3:ℝ) = 0)]
    norm_num
  have h5 : (Calculator.mk (demoHistory.take 4) initOperations).calcResult
      "**" [2, 8] = .ok 256 := by
    show Calculator.power 2 8 = .ok 256
    rw [Calculator.power, if_neg (by norm_num : ¬((2:ℝ) = 0 ∧ (8:ℝ) < 0)),
        rpow_two_eight]
  have h6 : (Calculator.mk (demoHistory.take 5) initOperations).calcResult
      "sqrt" [16] = .ok 4 := by
    show Calculator.sqrt 16 = .ok 4
    rw [Calculator.sqrt, if_neg (by norm_num : ¬(16:ℝ) < 0), sqrt_sixteen]
  have h7 : (Calculator.mk (demoHistory.take 6) initOperations).calcResult
      "log" [100] = .ok 2 := by
    show Calculator.log 100 10 = .ok 2
    rw [Calculator.log, if_neg (by norm_num : ¬((100:ℝ) ≤ 0 ∨ (10:ℝ) ≤ 0)),
        if_neg log_ten_ne_zero, log_hundred_base_ten]
  exact ⟨calculate_of_ok _ _ _ _ h1, calculate_of_ok _ _ _ _ h2,
    calculate_of_ok _ _ _ _ h3, calculate_of_ok _ _ _ _ h4,
    calculate_of_ok _ _ _ _ h5, calculate_of_ok _ _ _ _ h6,
    calculate_of_ok _ _ _ _ h7, rfl⟩

/-- Claim C9: clear_history empties the history and leaves the operation
mapping unchanged, in every state; a subsequent successful calculate
call appends exactly one record, making the history length 1. -/
theorem claim_C9_clear_history :
    (∀ c : Calculator,
      c.clear_history.get_history = [] ∧
      c.clear_history.operations = c.operations) ∧
    (∀ (c : Calculator) (op : String) (args : List ℝ) (r : ℝ),
      (c.clear_history.calculate op args).1 = .ok r →
      (c.clear_history.calculate op args).2.get_history.length = 1) := by
  constructor
  · intro c
    exact ⟨rfl, rfl⟩
  · intro c op args r hr
    show (c.clear_history.calculate op args).2.history.length = 1
    rw [calculate_history_of_fst_ok _ _ _ _ hr]
    rfl

/-- Witness for C9: after clearing a one-record history, an addition
succeeds and the history length is 1 again. -/
theorem claim_C9_clear_history_witness :
    ((Calculator.mk [Calculation.mk "+" [1, 1] 2 timestampStr]
        initOperations).clear_history.get_history = [] ∧
      (Calculator.mk [Calculation.mk "+" [1, 1] 2 timestampStr]
        initOperations).clear_history.operations = initOperations) ∧
    ((Calculator.mk [Calculation.mk "+" [1, 1] 2 timestampStr]
          initOperations).clear_history.calculate "+" [2, 3]).1 = .ok 5 ∧
    ((Calculator.mk [Calculation.mk "+" [1, 1] 2 timestampStr]
          initOperations).clear_history.calculate "+" [2, 3]).2.get_history.length =
      1 := by
  have hfst : ((Calculator.mk [Calculation.mk "+" [1, 1] 2 timestampStr]
      initOperations).clear_history.calculate "+" [2, 3]).1 = .ok 5 := by
    rw [calculate_fst_ok_iff]
    show (Except.ok (Calculator.add 2 3) : Except CalcError ℝ) = .ok 5
    norm_num [Calculator.add]
  exact ⟨claim_C9_clear_history.1 _, hfst,
    claim_C9_clear_history.2 _ "+" [2, 3] 5 hfst⟩

theorem reachable_timestamp (c : Calculator) (hc : ReachableCalc c) :
    ∀ rec ∈ c.history, rec.timestamp = timestampStr := by
  induction hc with
  | init =>
    intro rec hrec
    exact absurd hrec (List.not_mem_nil rec)
  | step c op args hc ih =>
    intro rec hrec
    cases hres : c.calcResult op args with
    | error e =>
      rw [calculate_of_error _ _ _ _ hres] at hrec
      exact ih rec hrec
    | ok r =>
      rw [calculate_of_ok _ _ _ _ hres] at hrec
      rcases List.mem_append.mp hrec with hmem | hmem
      · exact ih rec hmem
      · rw [List.mem_singleton] at hmem
        rw [hmem]
  | clear c hc ih =>
    intro rec hrec
    exact absurd hrec (List.not_mem_nil rec)

/-- Claim C10: every record a successful calculate call appends carries
the constant timestamp text of the JSON object with key time and value
now, independent of state and arguments; hence in every reachable state
any two history records have equal timestamp fields. -/
theorem claim_C10_constant_timestamp :
    (∀ (c : Calculator) (op : String) (args : List ℝ) (r : ℝ),
      (c.calculate op args).1 = .ok r →
      (c.calculate op args).2.history =
        c.history ++ [Calculation.mk op args r timestampStr]) ∧
    timestampStr = "\x7b\"time\": \"now\"\x7d" ∧
    (∀ c : Calculator, ReachableCalc c →
      ∀ r1 ∈ c.history, ∀ r2 ∈ c.history, r1.timestamp = r2.timestamp) := by
  refine ⟨?_, rfl, ?_⟩
  · intro c op args r hr
    exact calculate_history_of_fst_ok c op args r hr
  · intro c hc r1 h1 r2 h2
    rw [reachable_timestamp c hc r1 h1, reachable_timestamp c hc r2 h2]

/-- Witness for C10: the record appended by the first demo call carries
the constant timestamp, and in the reachable one-call state any two
records (here twice the same one) agree on it. -/
theorem claim_C10_constant_timestamp_witness :
    (Calculator.init.calculate "+" [2, 3]).1 = .ok 5 ∧
    (Calculator.init.calculate "+" [2, 3]).2.history =
      [] ++ [Calculation.mk "+" [2, 3] 5 timestampStr] ∧
    (Calculation.mk "+" [2, 3] 5 timestampStr).timestamp =
      (Calculation.mk "+" [2, 3] 5 timestampStr).timestamp := by
  have hfst : (Calculator.init.calculate "+" [2, 3]).1 = .ok 5 := by
    rw [calculate_fst_ok_iff]
    show (Except.ok (Calculator.add 2 3) : Except CalcError ℝ) = .ok 5
    norm_num [Calculator.add]
  have hhist := claim_C10_constant_timestamp.1 Calculator.init "+" [2, 3] 5 hfst
  have hmem : Calculation.mk "+" [2, 3] 5 timestampStr ∈
      (Calculator.init.calculate "+" [2, 3]).2.history := by
    rw [hhist]
    simp
  exact ⟨hfst, hhist,
    claim_C10_constant_timestamp.2.2 (Calculator.init.calculate "+" [2, 3]).2
      (ReachableCalc.step Calculator.init "+" [2, 3] ReachableCalc.init)
      _ hmem _ hmem⟩
